import Mathlib

/-!
Shallow embedding of `src/server.py`: a single-endpoint HTTP server that
validates a filesystem path and invokes an external subtitle-extraction
script, mapping the outcome of that invocation to an HTTP response.

The external collaborators (the operating system and the Python standard
library) are packaged as oracles in `Env`: the filesystem existence check
(`os.path.exists`), the process runner (`subprocess.run`), the JSON parser
(`json.loads`) and the UTF-8 byte decoder (`bytes.decode`).  The handler
code itself (`process_request`, `do_GET`, `do_POST` and the listening-port
computation of `run_server`) is translated branch by branch.  Raised
exceptions are modelled with `Except`; the `.error` payload is the `str(e)`
text Python would interpolate into the catch-all response body.
-/

namespace Subextractor

/-- Result of a completed `subprocess.run` call with `capture_output=True`:
the exit code plus the fully captured standard output and standard error. -/
structure ScriptResult where
  returncode : Int
  stdout : String
  stderr : String

/-- A Python value as produced by `json.loads`: JSON `null` maps to Python
`None`, objects map to `dict` (keys already deduplicated by the parser, a
later duplicate winning, so an association list with unique keys).  JSON
floats are not modelled; no claim involves them. -/
inductive JsonVal where
  | null
  | boolean (b : Bool)
  | num (n : Int)
  | str (s : String)
  | arr (elems : List JsonVal)
  | obj (fields : List (String × JsonVal))

/-- One HTTP response as the handler writes it: `send_response(status)`,
the single `Content-type` header, and the body (always UTF-8 text). -/
structure HttpResponse where
  status : Nat
  contentType : String
  body : String

/-- The argv pairs (executable, sole positional argument) passed to
`subprocess.run` while handling one request; `[]` means the external
script was never invoked. -/
abbrev Invocations := List (String × String)

/-- The external collaborators of the handler: `path_exists` is
`os.path.exists` on a string argument; `fd_exists` is `os.path.exists` on
an integer argument (Python accepts a file descriptor there); `run_script`
is `subprocess.run([EXTRACT_SCRIPT_PATH, p], capture_output=True)`, whose
`.error` case models a raised exception such as `FileNotFoundError`;
`json_loads` is `json.loads`, whose `.error` case models
`json.JSONDecodeError`; `decode_utf8` is `bytes.decode("utf-8")`, whose
`.error` case models `UnicodeDecodeError`. -/
structure Env where
  path_exists : String → Bool
  fd_exists : Int → Bool
  run_script : String → Except String ScriptResult
  json_loads : String → Except String JsonVal
  decode_utf8 : List Nat → Except String String

/-- Path to the subtitle extraction script inside the container
(`EXTRACT_SCRIPT_PATH` in `server.py`). -/
def EXTRACT_SCRIPT_PATH : String := "/scripts/extractor.sh"

/-- Python truth-testing, as used by `if not target_path`: `None`,
`False`, `0`, the empty string, the empty list and the empty dict are
falsy; everything else is truthy. -/
def falsy : JsonVal → Bool
  | .null => true
  | .boolean b => !b
  | .num n => n == 0
  | .str s => s == ""
  | .arr elems => elems.isEmpty
  | .obj fields => fields.isEmpty

/-- The Python type name of a decoded JSON value, as it appears in
exception texts. -/
def python_type_name : JsonVal → String
  | .null => "NoneType"
  | .boolean _ => "bool"
  | .num _ => "int"
  | .str _ => "str"
  | .arr _ => "list"
  | .obj _ => "dict"

/-- `str(target_path)` for the values that can reach an f-string in
`process_request` (a string, an integer or a boolean; a list or dict
target raises `TypeError` in `os.path.exists` before any message is
built, so those cases are unreachable there). -/
def py_str : JsonVal → String
  | .null => "None"
  | .boolean b => if b then "True" else "False"
  | .num n => toString n
  | .str s => s
  | .arr _ => "[...]"
  | .obj _ => "{...}"

/-- `os.path.exists target_path` on a decoded JSON value: consults the
filesystem oracle on a string, the file-descriptor oracle on an integer
or boolean (Python `bool` is an `int`), and raises `TypeError` (`.error`)
on `None`, a list or a dict. -/
def target_exists (env : Env) : JsonVal → Except String Bool
  | .str s => .ok (env.path_exists s)
  | .num n => .ok (env.fd_exists n)
  | .boolean b => .ok (env.fd_exists (if b then 1 else 0))
  | v => .error ("stat: path should be string, bytes, os.PathLike or integer, not "
      ++ python_type_name v)

/-- `str(e)` of the `TypeError` raised by `subprocess.run` when the argv
list holds a non-string element. -/
def subprocess_type_error (v : JsonVal) : String :=
  "expected str, bytes or os.PathLike object, not " ++ python_type_name v

/-- `RequestHandler.process_request`: the shared validation-and-invocation
routine (`server.py` lines 16-71).  Returns the response written plus the
argv pairs passed to `subprocess.run`; the `.error` case models an
exception escaping `process_request`, which is possible only from
`os.path.exists` on a list or dict target, since that call sits before the
`try` block.  Exceptions raised inside the `try` block (a failed process
start, or a non-string truthy target reaching `subprocess.run`) are caught
there and produce the generic 500 response. -/
def process_request (env : Env) (target_path : JsonVal) :
    Except String (HttpResponse × Invocations) :=
  if falsy target_path then
    .ok ({ status := 400, contentType := "text/plain",
           body := "Error: 'path' parameter is required in the URL query or JSON body." },
         [])
  else
    match target_exists env target_path with
    | .error e => .error e
    | .ok ex =>
      if !ex then
        .ok ({ status := 400, contentType := "text/plain",
               body := "Error: The specified path does not exist inside the container: '"
                 ++ py_str target_path ++ "'" },
             [])
      else
        match target_path with
        | .str p =>
          match env.run_script p with
          | .ok result =>
            if result.returncode == 0 then
              .ok ({ status := 200, contentType := "text/plain",
                     body := "Successfully processed '" ++ p
                       ++ "'.\n\n--- SCRIPT OUTPUT ---\n" ++ result.stdout },
                   [(EXTRACT_SCRIPT_PATH, p)])
            else
              .ok ({ status := 500, contentType := "text/plain",
                     body := "Script failed to process '" ++ p
                       ++ "'.\n\n--- SCRIPT ERROR ---\n" ++ result.stderr
                       ++ "\n\n--- SCRIPT OUTPUT ---\n" ++ result.stdout },
                   [(EXTRACT_SCRIPT_PATH, p)])
          | .error e =>
            .ok ({ status := 500, contentType := "text/plain",
                   body := "An unexpected server error occurred: " ++ e },
                 [(EXTRACT_SCRIPT_PATH, p)])
        | v =>
          .ok ({ status := 500, contentType := "text/plain",
                 body := "An unexpected server error occurred: " ++ subprocess_type_error v },
               [])

/-- `query_params.get("path", [None])[0]`: the first value of the `path`
query parameter.  `parse_qs` never yields an empty value list, so the
`some []` case (which would raise `IndexError`) is mapped to `none`. -/
def get_param_first (query_params : List (String × List String)) (key : String) :
    Option String :=
  match query_params.lookup key with
  | none => none
  | some [] => none
  | some (v :: _) => some v

/-- The GET adapter from extracted query value to the argument of
`process_request`: a missing parameter becomes Python `None`, a present
one the string itself. -/
def target_of_get : Option String → JsonVal
  | none => .null
  | some s => .str s

/-- `RequestHandler.do_GET` (`server.py` lines 73-100), taken after the
standard-library URL parsing: `url_path` is `urlparse(self.path).path`
and `query_params` is `parse_qs(parsed_path.query)`. -/
def do_GET (env : Env) (url_path : String)
    (query_params : List (String × List String)) :
    Except String (HttpResponse × Invocations) :=
  if url_path == "/extract" then
    process_request env (target_of_get (get_param_first query_params "path"))
  else
    .ok ({ status := 404, contentType := "text/plain",
           body := "Not Found. Please use the /extract endpoint." },
         [])

/-- The whitespace Python `int` strips from both ends of its string
argument, restricted to the ASCII range, where these six characters are
exactly the ones stripped (`\x1c`-`\x1f` are not).  Beyond ASCII Python
also strips Unicode whitespace such as `\xa0`, which this model does
not; see `python_int` for the consequence. -/
def is_py_space (c : Char) : Bool :=
  c == ' ' || c == '\t' || c == '\n' || c == '\x0b' || c == '\x0c' || c == '\r'

/-- Tail of a Python integer literal after its first digit: further
digits, with single underscores allowed only between digits. -/
def py_digits_go (acc : Nat) : List Char → Option Nat
  | [] => some acc
  | '_' :: c :: cs =>
    if c.isDigit then py_digits_go (acc * 10 + (c.toNat - 48)) cs else none
  | ['_'] => none
  | c :: cs =>
    if c.isDigit then py_digits_go (acc * 10 + (c.toNat - 48)) cs else none

/-- The digit run of a Python integer literal, `[0-9](_?[0-9])*`. -/
def py_digits : List Char → Option Nat
  | [] => none
  | c :: cs => if c.isDigit then py_digits_go (c.toNat - 48) cs else none

/-- Python `int(s)` on a string: strip whitespace from both ends, accept
an optional sign and then a nonempty digit run; `none` models the
`ValueError` raise.  On strings of ASCII characters this agrees with
Python `int` exactly; beyond ASCII Python additionally accepts Unicode
decimal digits and strips Unicode whitespace, which this model rejects,
so in general the model is sound only in the success direction
(whatever it parses, Python parses to the same value).  Failure-direction
conclusions are therefore stated only under `ascii_only`. -/
def python_int (s : String) : Option Int :=
  let core := ((s.toList.dropWhile is_py_space).reverse.dropWhile is_py_space).reverse
  match core with
  | '+' :: cs => (py_digits cs).map (fun n => (n : Int))
  | '-' :: cs => (py_digits cs).map (fun n => -(n : Int))
  | cs => (py_digits cs).map (fun n => (n : Int))

/-- `int(self.headers["Content-Length"])`: a missing header gives Python
`None`, so `int` raises `TypeError`; an unparsable value raises
`ValueError`.  The `.error` strings are the `str(e)` texts. -/
def parse_content_length : Option String → Except String Int
  | none =>
    .error "int() argument must be a string, a bytes-like object or a real number, not 'NoneType'"
  | some s =>
    match python_int s with
    | some n => .ok n
    | none => .error ("invalid literal for int() with base 10: '" ++ s ++ "'")

/-- `self.rfile.read(n)` over the connection's pending body bytes: a
nonnegative `n` reads at most `n` bytes, a negative `n` reads to EOF. -/
def py_read (rfile : List Nat) (n : Int) : List Nat :=
  if n < 0 then rfile else rfile.take n.toNat

/-- `data.get("path")`: defined only on a dict (`.obj`); on any other
decoded JSON value Python raises `AttributeError` (`.error`).  A missing
key yields Python `None`, i.e. `.null`. -/
def dict_get_path : JsonVal → Except String JsonVal
  | .obj fields =>
    .ok (match fields.lookup "path" with
         | some v => v
         | none => .null)
  | v => .error ("'" ++ python_type_name v ++ "' object has no attribute 'get'")

/-- The exception classification `do_POST` needs: `json.JSONDecodeError`
is caught by its dedicated handler, every other exception by the
catch-all `except Exception`. -/
inductive PyErr where
  | jsonDecodeError (msg : String)
  | otherError (msg : String)

/-- `RequestHandler.do_POST` (`server.py` lines 102-146), taken after the
URL parsing: `url_path` is `urlparse(self.path).path`,
`content_length_header` the raw `Content-Length` header value (`none`
when absent), `rfile` the body bytes pending on the connection.  The
whole extraction pipeline runs inside `try`, so no exception escapes:
`json.JSONDecodeError` yields the 400 invalid-JSON response and any other
exception the generic 500 response. -/
def do_POST (env : Env) (url_path : String)
    (content_length_header : Option String) (rfile : List Nat) :
    HttpResponse × Invocations :=
  if url_path == "/extract" then
    let attempt : Except PyErr (HttpResponse × Invocations) :=
      match parse_content_length content_length_header with
      | .error e => .error (.otherError e)
      | .ok content_length =>
        match env.decode_utf8 (py_read rfile content_length) with
        | .error e => .error (.otherError e)
        | .ok body_str =>
          match env.json_loads body_str with
          | .error e => .error (.jsonDecodeError e)
          | .ok data =>
            match dict_get_path data with
            | .error e => .error (.otherError e)
            | .ok target_path =>
              match process_request env target_path with
              | .error e => .error (.otherError e)
              | .ok res => .ok res
    match attempt with
    | .ok res => res
    | .error (.jsonDecodeError _) =>
      ({ status := 400, contentType := "text/plain",
         body := "Error: Invalid JSON in request body." },
       [])
    | .error (.otherError e) =>
      ({ status := 500, contentType := "text/plain",
         body := "An unexpected server error occurred while processing POST request: " ++ e },
       [])
  else
    ({ status := 404, contentType := "text/plain",
       body := "Not Found. Please use the /extract endpoint for POST requests." },
     [])

/-- The listening-port computation of `run_server` (`server.py` line 154):
`int(os.environ.get("LISTEN_PORT", 8080))`.  With the variable unset,
`get` returns the integer default `8080` and `int` is the identity on it;
with the variable set, `int` parses the string, and `none` models the
`ValueError` raise, after which the server never starts. -/
def run_server_port (listen_port : Option String) : Option Int :=
  match listen_port with
  | none => some 8080
  | some s => python_int s

/-- A concrete environment for evaluating the handler: the filesystem
holds exactly `/data/movie.mkv`, the script prints `done` and exits 0,
and the POST decoders are unused. -/
def envSucceed : Env where
  path_exists := fun s => s == "/data/movie.mkv"
  fd_exists := fun _ => false
  run_script := fun _ => .ok { returncode := 0, stdout := "done\n", stderr := "" }
  json_loads := fun _ => .error "Expecting value: line 1 column 1 (char 0)"
  decode_utf8 := fun _ => .ok ""

/-- Like `envSucceed`, but the script fails with exit code 2, writing a
diagnostic to standard error. -/
def envFail : Env where
  path_exists := fun s => s == "/data/movie.mkv"
  fd_exists := fun _ => false
  run_script := fun _ => .ok { returncode := 2, stdout := "partial\n", stderr := "boom\n" }
  json_loads := fun _ => .error "Expecting value: line 1 column 1 (char 0)"
  decode_utf8 := fun _ => .ok ""

/-- C1: a request routed to `/extract` whose extracted target path exists
and whose script invocation exits 0 is answered with HTTP 200 and a
plain-text body of the success line naming the processed path followed by
the full captured standard output.  Stated on `process_request`, the
shared routine to which both `do_GET` and `do_POST` dispatch every
`/extract` request. -/
theorem c1_exit_zero_gives_200_with_stdout
    (env : Env) (p : String) (r : ScriptResult)
    (hp : p ≠ "")
    (hex : env.path_exists p = true)
    (hrun : env.run_script p = .ok r)
    (h0 : r.returncode = 0) :
    process_request env (.str p) =
      .ok ({ status := 200, contentType := "text/plain",
             body := "Successfully processed '" ++ p
               ++ "'.\n\n--- SCRIPT OUTPUT ---\n" ++ r.stdout },
           [(EXTRACT_SCRIPT_PATH, p)]) := by
  simp [process_request, falsy, target_exists, hex, hrun, h0, hp]

/-- Witness for C1 at the concrete environment `envSucceed` and the path
`/data/movie.mkv`. -/
theorem c1_witness :
    process_request envSucceed (.str "/data/movie.mkv") =
      .ok ({ status := 200, contentType := "text/plain",
             body := "Successfully processed '/data/movie.mkv'.\n\n--- SCRIPT OUTPUT ---\ndone\n" },
           [("/scripts/extractor.sh", "/data/movie.mkv")]) :=
  c1_exit_zero_gives_200_with_stdout envSucceed "/data/movie.mkv"
    { returncode := 0, stdout := "done\n", stderr := "" }
    (by decide) rfl rfl rfl

/-- C2: a request routed to `/extract` whose extracted target path exists
and whose script invocation exits non-zero is answered with HTTP 500 and
a plain-text body of the failure line naming the path, then the full
captured standard error, then the full captured standard output. -/
theorem c2_exit_nonzero_gives_500_with_stderr_stdout
    (env : Env) (p : String) (r : ScriptResult)
    (hp : p ≠ "")
    (hex : env.path_exists p = true)
    (hrun : env.run_script p = .ok r)
    (hnz : r.returncode ≠ 0) :
    process_request env (.str p) =
      .ok ({ status := 500, contentType := "text/plain",
             body := "Script failed to process '" ++ p
               ++ "'.\n\n--- SCRIPT ERROR ---\n" ++ r.stderr
               ++ "\n\n--- SCRIPT OUTPUT ---\n" ++ r.stdout },
           [(EXTRACT_SCRIPT_PATH, p)]) := by
  simp [process_request, falsy, target_exists, hex, hrun, hnz, hp]

/-- Witness for C2 at the concrete environment `envFail`. -/
theorem c2_witness :
    process_request envFail (.str "/data/movie.mkv") =
      .ok ({ status := 500, contentType := "text/plain",
             body := "Script failed to process '/data/movie.mkv'.\n\n--- SCRIPT ERROR ---\nboom\n\n\n--- SCRIPT OUTPUT ---\npartial\n" },
           [("/scripts/extractor.sh", "/data/movie.mkv")]) :=
  c2_exit_nonzero_gives_500_with_stderr_stdout envFail "/data/movie.mkv"
    { returncode := 2, stdout := "partial\n", stderr := "boom\n" }
    (by decide) rfl rfl (by decide)

/-- C3: a request routed to `/extract` whose extracted target path is
missing (Python `None`) or the empty string is answered with HTTP 400, a
body stating the `path` parameter is required, and the script is never
invoked. -/
theorem c3_missing_or_empty_path_gives_400
    (env : Env) (target : JsonVal)
    (h : target = .null ∨ target = .str "") :
    process_request env target =
      .ok ({ status := 400, contentType := "text/plain",
             body := "Error: 'path' parameter is required in the URL query or JSON body." },
           []) := by
  rcases h with rfl | rfl <;> simp [process_request, falsy]

/-- Witness for C3 at the missing target. -/
theorem c3_witness :
    process_request envSucceed .null =
      .ok ({ status := 400, contentType := "text/plain",
             body := "Error: 'path' parameter is required in the URL query or JSON body." },
           []) :=
  c3_missing_or_empty_path_gives_400 envSucceed .null (Or.inl rfl)

/-- C4: a request routed to `/extract` whose extracted target path is
non-empty but does not exist on the filesystem is answered with HTTP 400,
a body naming the nonexistent path, and the script is never invoked. -/
theorem c4_nonexistent_path_gives_400_naming_path
    (env : Env) (p : String)
    (hp : p ≠ "")
    (hex : env.path_exists p = false) :
    process_request env (.str p) =
      .ok ({ status := 400, contentType := "text/plain",
             body := "Error: The specified path does not exist inside the container: '"
               ++ p ++ "'" },
           []) := by
  simp [process_request, falsy, target_exists, hex, py_str, hp]

/-- Witness for C4 at the concrete nonexistent path `/nonexistent/x.mkv`. -/
theorem c4_witness :
    process_request envSucceed (.str "/nonexistent/x.mkv") =
      .ok ({ status := 400, contentType := "text/plain",
             body := "Error: The specified path does not exist inside the container: '/nonexistent/x.mkv'" },
           []) :=
  c4_nonexistent_path_gives_400_naming_path envSucceed "/nonexistent/x.mkv"
    (by decide) rfl

/-- An environment whose POST body decodes to the text `not json`, on
which `json.loads` raises `JSONDecodeError`. -/
def envBadJson : Env where
  path_exists := fun _ => false
  fd_exists := fun _ => false
  run_script := fun _ => .ok { returncode := 0, stdout := "", stderr := "" }
  json_loads := fun _ => .error "Expecting value: line 1 column 1 (char 0)"
  decode_utf8 := fun _ => .ok "not json"

/-- C5: a POST to `/extract` whose body, read as exactly `Content-Length`
bytes, fails to parse as JSON is answered with HTTP 400, a plain-text
body indicating invalid JSON, and no process invocation. -/
theorem c5_invalid_json_gives_400_no_invocation
    (env : Env) (clh : Option String) (rfile : List Nat)
    (n : Int) (s e : String)
    (hcl : parse_content_length clh = .ok n)
    (hdec : env.decode_utf8 (py_read rfile n) = .ok s)
    (hjson : env.json_loads s = .error e) :
    do_POST env "/extract" clh rfile =
      ({ status := 400, contentType := "text/plain",
         body := "Error: Invalid JSON in request body." },
       []) := by
  simp [do_POST, hcl, hdec, hjson]

/-- Witness for C5: a POST of the 8-byte body `not json`. -/
theorem c5_witness :
    do_POST envBadJson "/extract" (some "8") [110, 111, 116, 32, 106, 115, 111, 110] =
      ({ status := 400, contentType := "text/plain",
         body := "Error: Invalid JSON in request body." },
       []) :=
  c5_invalid_json_gives_400_no_invocation envBadJson (some "8")
    [110, 111, 116, 32, 106, 115, 111, 110] 8 "not json"
    "Expecting value: line 1 column 1 (char 0)" rfl rfl rfl

/-- C6: a GET to `/extract` whose `path` query parameter names an
existing filesystem entry invokes the external script exactly once — argv
list `[EXTRACT_SCRIPT_PATH, p]`, the target path as sole positional
argument — and the response is computed from the fully captured exit
code, standard output and standard error of the terminated process. -/
theorem c6_get_existing_path_invokes_once
    (env : Env) (query : List (String × List String)) (p : String) (r : ScriptResult)
    (hq : get_param_first query "path" = some p)
    (hp : p ≠ "")
    (hex : env.path_exists p = true)
    (hrun : env.run_script p = .ok r) :
    do_GET env "/extract" query =
      .ok ((if r.returncode = 0 then
              { status := 200, contentType := "text/plain",
                body := "Successfully processed '" ++ p
                  ++ "'.\n\n--- SCRIPT OUTPUT ---\n" ++ r.stdout }
            else
              { status := 500, contentType := "text/plain",
                body := "Script failed to process '" ++ p
                  ++ "'.\n\n--- SCRIPT ERROR ---\n" ++ r.stderr
                  ++ "\n\n--- SCRIPT OUTPUT ---\n" ++ r.stdout }),
           [(EXTRACT_SCRIPT_PATH, p)]) := by
  by_cases h0 : r.returncode = 0 <;>
    simp [do_GET, hq, target_of_get, process_request, falsy, target_exists,
      hex, hrun, h0, hp]

/-- Witness for C6 at the concrete query `path=/data/movie.mkv`. -/
theorem c6_witness :
    do_GET envSucceed "/extract" [("path", ["/data/movie.mkv"])] =
      .ok ({ status := 200, contentType := "text/plain",
             body := "Successfully processed '/data/movie.mkv'.\n\n--- SCRIPT OUTPUT ---\ndone\n" },
           [("/scripts/extractor.sh", "/data/movie.mkv")]) :=
  c6_get_existing_path_invokes_once envSucceed [("path", ["/data/movie.mkv"])]
    "/data/movie.mkv" { returncode := 0, stdout := "done\n", stderr := "" }
    rfl (by decide) rfl rfl

/-- C7: a request, GET or POST, whose URL path is anything other than
`/extract` is answered with HTTP 404 and a plain-text body directing the
caller to `/extract`, and no process invocation occurs. -/
theorem c7_other_paths_give_404
    (env : Env) (url_path : String) (query : List (String × List String))
    (clh : Option String) (rfile : List Nat)
    (h : url_path ≠ "/extract") :
    do_GET env url_path query =
      .ok ({ status := 404, contentType := "text/plain",
             body := "Not Found. Please use the /extract endpoint." },
           [])
    ∧ do_POST env url_path clh rfile =
      ({ status := 404, contentType := "text/plain",
         body := "Not Found. Please use the /extract endpoint for POST requests." },
       []) := by
  constructor <;> simp [do_GET, do_POST, h]

/-- Witness for C7 at the concrete path `/other`. -/
theorem c7_witness :
    do_GET envSucceed "/other" [] =
      .ok ({ status := 404, contentType := "text/plain",
             body := "Not Found. Please use the /extract endpoint." },
           [])
    ∧ do_POST envSucceed "/other" none [] =
      ({ status := 404, contentType := "text/plain",
         body := "Not Found. Please use the /extract endpoint for POST requests." },
       []) :=
  c7_other_paths_give_404 envSucceed "/other" [] none [] (by decide)

/-- On a target produced by the GET adapter (Python `None` or a string)
no exception escapes `process_request`: every branch reached from such a
target writes a response. -/
theorem process_request_ok_on_get_target (env : Env) (o : Option String) :
    ∃ res, process_request env (target_of_get o) = .ok res := by
  cases o with
  | none => exact ⟨_, rfl⟩
  | some s =>
    by_cases hs : s = ""
    · simp [target_of_get, process_request, falsy, hs]
    · by_cases hex : env.path_exists s = true
      · rcases hrun : env.run_script s with e | r
        · simp [target_of_get, process_request, falsy, target_exists, hs, hex, hrun]
        · by_cases h0 : r.returncode = 0
          · simp [target_of_get, process_request, falsy, target_exists, hs, hex, hrun, h0]
          · simp [target_of_get, process_request, falsy, target_exists, hs, hex, hrun, h0]
      · have hex2 : env.path_exists s = false := by
          cases h : env.path_exists s
          · rfl
          · exact absurd h hex
        simp [target_of_get, process_request, falsy, target_exists, hs, hex2]

/-- An environment whose POST body decodes to the JSON object text with
no fields, which `json.loads` parses as the empty dict. -/
def envEmptyObj : Env where
  path_exists := fun _ => false
  fd_exists := fun _ => false
  run_script := fun _ => .ok { returncode := 0, stdout := "", stderr := "" }
  json_loads := fun _ => .ok (.obj [])
  decode_utf8 := fun _ => .ok "\x7b\x7d"

/-- C8: a POST to `/extract` whose JSON object lacks a `path` field is
answered exactly like a GET to `/extract` with no `path` query parameter
— both adapters feed the same extracted target into the shared
`process_request`, so equal extracted targets give equal responses — and
the missing-`path` POST yields the 400 required-parameter response. -/
theorem c8_get_post_share_validation
    (env : Env) (clh : Option String) (rfile : List Nat)
    (n : Int) (s : String) (fields : List (String × JsonVal))
    (query : List (String × List String))
    (hcl : parse_content_length clh = .ok n)
    (hdec : env.decode_utf8 (py_read rfile n) = .ok s)
    (hjson : env.json_loads s = .ok (.obj fields))
    (hsame : dict_get_path (.obj fields) =
      .ok (target_of_get (get_param_first query "path"))) :
    .ok (do_POST env "/extract" clh rfile) = do_GET env "/extract" query
    ∧ (fields.lookup "path" = none →
       do_POST env "/extract" clh rfile =
         ({ status := 400, contentType := "text/plain",
            body := "Error: 'path' parameter is required in the URL query or JSON body." },
          [])) := by
  obtain ⟨res, hres⟩ := process_request_ok_on_get_target env (get_param_first query "path")
  constructor
  · simp [do_POST, do_GET, hcl, hdec, hjson, hsame, hres]
  · intro hnone
    have hnull : dict_get_path (.obj fields) = .ok .null := by
      simp [dict_get_path, hnone]
    simp [do_POST, hcl, hdec, hjson, hnull, process_request, falsy]

/-- Witness for C8: a POST of the two-byte body holding the empty JSON
object against a GET with no query parameters. -/
theorem c8_witness :
    .ok (do_POST envEmptyObj "/extract" (some "2") [123, 125]) =
      do_GET envEmptyObj "/extract" []
    ∧ do_POST envEmptyObj "/extract" (some "2") [123, 125] =
      ({ status := 400, contentType := "text/plain",
         body := "Error: 'path' parameter is required in the URL query or JSON body." },
       []) :=
  ⟨(c8_get_post_share_validation envEmptyObj (some "2") [123, 125] 2 "\x7b\x7d"
      [] [] rfl rfl rfl rfl).1,
   (c8_get_post_share_validation envEmptyObj (some "2") [123, 125] 2 "\x7b\x7d"
      [] [] rfl rfl rfl rfl).2 rfl⟩

/-- C9 counterexample: with the environment variable set to `abc`, a
value unparsable as an integer, `int` raises `ValueError` and no port is
produced — the claimed default of 8080 does not apply. -/
theorem c9_counterexample_unparsable_value :
    run_server_port (some "abc") ≠ some 8080 := by decide

/-- Whether every character of the string is ASCII.  `python_int` agrees
with Python `int` exactly on such strings, so failure-direction
statements about the port are made only under this guard. -/
def ascii_only (s : String) : Bool :=
  s.toList.all (fun c => c.toNat < 128)

/-- C9 amended: the port is 8080 when the variable is unset and the
parsed integer when it is set to a parsable value; when it is set to a
value `int` cannot parse, `int` raises `ValueError` and the server fails
to start instead of defaulting to 8080.  The failure direction is stated
for ASCII values, on which `python_int` coincides with Python `int`
(beyond ASCII, Python also accepts Unicode decimal digits and strips
Unicode whitespace, so there the model witnesses only successes). -/
theorem c9_amended_port_semantics (s : String) (k : Int) :
    run_server_port none = some 8080
    ∧ (python_int s = some k → run_server_port (some s) = some k)
    ∧ (ascii_only s = true → python_int s = none → run_server_port (some s) = none) := by
  refine ⟨rfl, fun h => ?_, fun _ h => ?_⟩ <;> simp [run_server_port, h]

/-- Witness for C9 at the parsable value `8090` and the unparsable ASCII
value `port`. -/
theorem c9_witness :
    python_int "8090" = some 8090 ∧ run_server_port (some "8090") = some 8090
    ∧ ascii_only "port" = true ∧ python_int "port" = none
    ∧ run_server_port (some "port") = none :=
  ⟨rfl, (c9_amended_port_semantics "8090" 8090).2.1 rfl, rfl, rfl,
   (c9_amended_port_semantics "port" 8090).2.2 rfl rfl⟩

/-- An environment whose UTF-8 decoder rejects the request body. -/
def envNoDecode : Env where
  path_exists := fun _ => false
  fd_exists := fun _ => false
  run_script := fun _ => .ok { returncode := 0, stdout := "", stderr := "" }
  json_loads := fun _ => .error "Expecting value: line 1 column 1 (char 0)"
  decode_utf8 := fun _ =>
    .error "'utf-8' codec can't decode byte 0xff in position 0: invalid start byte"

/-- C10: a POST to `/extract` with no `Content-Length` header, or whose
body bytes fail to decode as UTF-8, falls into the catch-all branch
before JSON validation: HTTP 500 with the generic unexpected-error text
(not the 400 invalid-JSON response), and no process invocation. -/
theorem c10_missing_content_length_or_bad_utf8_gives_500
    (env : Env) (clh : Option String) (rfile : List Nat) (n : Int) (e : String) :
    do_POST env "/extract" none rfile =
      ({ status := 500, contentType := "text/plain",
         body := "An unexpected server error occurred while processing POST request: "
           ++ "int() argument must be a string, a bytes-like object or a real number, not 'NoneType'" },
       [])
    ∧ (parse_content_length clh = .ok n →
       env.decode_utf8 (py_read rfile n) = .error e →
       do_POST env "/extract" clh rfile =
         ({ status := 500, contentType := "text/plain",
            body := "An unexpected server error occurred while processing POST request: " ++ e },
          [])) := by
  constructor
  · simp [do_POST, parse_content_length]
  · intro hcl hdec
    simp [do_POST, hcl, hdec]

/-- Witness for C10: a headerless POST and a POST of the single
undecodable byte 255. -/
theorem c10_witness :
    do_POST envNoDecode "/extract" none [255] =
      ({ status := 500, contentType := "text/plain",
         body := "An unexpected server error occurred while processing POST request: "
           ++ "int() argument must be a string, a bytes-like object or a real number, not 'NoneType'" },
       [])
    ∧ do_POST envNoDecode "/extract" (some "1") [255] =
      ({ status := 500, contentType := "text/plain",
         body := "An unexpected server error occurred while processing POST request: "
           ++ "'utf-8' codec can't decode byte 0xff in position 0: invalid start byte" },
       []) :=
  ⟨(c10_missing_content_length_or_bad_utf8_gives_500 envNoDecode (some "1") [255] 1
      "'utf-8' codec can't decode byte 0xff in position 0: invalid start byte").1,
   (c10_missing_content_length_or_bad_utf8_gives_500 envNoDecode (some "1") [255] 1
      "'utf-8' codec can't decode byte 0xff in position 0: invalid start byte").2 rfl rfl⟩

end Subextractor
